import Mathlib

/-!
Shallow embedding of the ontology grounding search component of the
aurelian repository, together with theorems checking the specification
claims against it.

Embedded source files:
- src/aurelian/agents/ontology_mapper/ontology_mapper_tools.py (search_terms)
- src/aurelian/utils/ontology_utils.py (search_ontology)
- src/aurelian/agents/knowledge_agent/knowledge_agent_tools.py
  (search_ontology_with_oak, ground_entities_with_template_annotators)

Strings are modelled at the ASCII level: Python str.lower / str.upper /
str.strip / str.split and the substring operator are implemented below
on character lists, agreeing with Python on ASCII input. Confidence scores (Python float literals 0.95 etc.,
used only as constants, never computed with) are modelled as rationals.
The external backend (OAK adapter) is an opaque oracle: a call either
returns a list of (identifier, label) pairs or raises a Python exception,
modelled by the BackendCall type.
-/

namespace Aurelian

/-- Decidable equality for Except values, used to evaluate concrete
calls of the embedded operations. -/
instance {ε α : Type} [DecidableEq ε] [DecidableEq α] : DecidableEq (Except ε α) := fun a b =>
  match a, b with
  | .ok x, .ok y =>
    if h : x = y then .isTrue (by rw [h]) else .isFalse (fun g => by cases g; exact h rfl)
  | .ok _, .error _ => .isFalse (fun g => by cases g)
  | .error _, .ok _ => .isFalse (fun g => by cases g)
  | .error x, .error y =>
    if h : x = y then .isTrue (by rw [h]) else .isFalse (fun g => by cases g; exact h rfl)

/-- Python-style check that the char list pre is an initial segment of hay
(second argument is the candidate initial segment). -/
def startsWithL : List Char → List Char → Bool
  | _, [] => true
  | [], _ :: _ => false
  | a :: as, b :: bs => a == b && startsWithL as bs

/-- Python substring test sub in hay, on char lists. -/
def occursL (sub : List Char) : List Char → Bool
  | [] => sub.isEmpty
  | c :: rest => startsWithL (c :: rest) sub || occursL sub rest

/-- Python substring test sub in hay, on strings (the binary in operator
of Python applied to two strings). -/
def strIn (sub hay : String) : Bool := occursL sub.toList hay.toList

/-- Python str.lower(), at the ASCII level. -/
def pyLower (s : String) : String := String.mk (s.toList.map Char.toLower)

/-- Python str.upper(), at the ASCII level. -/
def pyUpper (s : String) : String := String.mk (s.toList.map Char.toUpper)

/-- Python str.strip() with no argument: drop leading and trailing
whitespace. -/
def pyStrip (s : String) : String :=
  String.mk (((s.toList.dropWhile Char.isWhitespace).reverse.dropWhile
    Char.isWhitespace).reverse)

/-- Accumulator loop for the whitespace split: current fragment is held
reversed in acc. -/
def splitWSAux : List Char → List Char → List String
  | [], acc => if acc.isEmpty then [] else [String.mk acc.reverse]
  | c :: rest, acc =>
    if c.isWhitespace then
      if acc.isEmpty then splitWSAux rest []
      else String.mk acc.reverse :: splitWSAux rest []
    else splitWSAux rest (c :: acc)

/-- Python str.split() with no separator: split on whitespace runs and
drop empty fragments. -/
def splitWS (s : String) : List String := splitWSAux s.toList []

/-- Python check a space character occurs in the string; this is the
test written as a quoted space in ontology_id in search_terms. It tests
only for the space character U+0020, not for arbitrary whitespace. -/
def hasSpace (s : String) : Bool := s.toList.any (fun c => c == ' ')

/-- Python exception raised by the backend, carrying the message that
Python str(e) would render. The three named constructors are the classes
caught by the except clause of search_ontology_with_oak (ValueError,
urllib.error.URLError, KeyError); other covers every other class. -/
inductive PyExc where
  | valueError (msg : String)
  | urlError (msg : String)
  | keyError (msg : String)
  | other (msg : String)
deriving DecidableEq, Repr

/-- Message carried by the exception, standing for Python str(e). -/
def PyExc.str : PyExc → String
  | .valueError m => m
  | .urlError m => m
  | .keyError m => m
  | .other m => m

/-- Outcome of one call into the opaque ontology backend for a given
(vocabulary, query) pair: either a list of (identifier, label) pairs, or
a raised Python exception. -/
inductive BackendCall where
  | ok (pairs : List (String × String))
  | raises (e : PyExc)
deriving DecidableEq, Repr

/-- Configuration object of the ontology mapper agent, as used by
search_terms: ctx.deps (or the get_config default) exposes a list of
allowed ontology ids and the maximum number of search results. The
concrete defaults live in ontology_mapper_config.py; search_terms uses
only these two fields. -/
structure OntologyMapperConfig where
  ontologies : List String
  max_search_results : Nat
deriving DecidableEq, Repr

/-- Result dictionary built by search_terms for one backend match
(fields of the Python dict literal at lines 109-116 of
ontology_mapper_tools.py). -/
structure EnhancedResult where
  id : String
  label : String
  match_type : String
  confidence : ℚ
  curator_note : String
  ontology : String
deriving DecidableEq, Repr

/-- Error raised by search_terms: every error path raises
pydantic_ai.ModelRetry with a message. -/
inductive SearchError where
  | modelRetry (msg : String)
deriving DecidableEq, Repr

/-- Classification chain of search_terms (ontology_mapper_tools.py lines
90-107): given the lower-cased trimmed query and the lower-cased label,
return (match_type, confidence, curator_note) by the if/elif chain of
the source. -/
def classifyMatch (queryLower labelLower : String) : String × ℚ × String :=
  if labelLower == queryLower then
    ("exact_label", 0.95, "Exact match to preferred term")
  else if strIn queryLower labelLower then
    ("partial_label", 0.85, "Partial match in term label")
  else if (splitWS queryLower).any (fun w => decide (3 < w.length) && strIn w labelLower) then
    ("word_match", 0.75, "Word-level match via similarity")
  else
    ("semantic_similarity", 0.65, "Semantic similarity match - review recommended")

/-- Result dictionary search_terms appends for one (term_id, label) pair
returned by the backend. -/
def enhanceResult (ontologyId queryLower : String) (p : String × String) : EnhancedResult :=
  let c := classifyMatch queryLower (pyLower p.2)
  { id := p.1
    label := p.2
    match_type := c.1
    confidence := c.2.1
    curator_note := c.2.2
    ontology := pyUpper ontologyId }

/-- Sentinel dictionary search_terms returns when the enhanced result
list is empty (ontology_mapper_tools.py lines 120-127). The \x27 escapes
are apostrophes of the Python f-strings. -/
def sentinelResult (ontologyId query : String) : EnhancedResult :=
  { id := "no_match"
    label := "No matches found for \x27" ++ query ++ "\x27"
    match_type := "none"
    confidence := 0
    curator_note := "No terms found in " ++ ontologyId ++ ". Try synonyms or broader/narrower terms."
    ontology := pyUpper ontologyId }

/-- Message of the ModelRetry raised when the ontology id contains a
space character. -/
def invalidOntologyMsg : String :=
  "Invalid ontology ID, use an OBO style ID like cl, mondo, chebi, etc."

/-- Message of the ModelRetry raised when the ontology id is not in the
configured allow-list (with \x27 for the apostrophes of the f-string). -/
def notAllowedMsg (cfg : OntologyMapperConfig) (ontologyId : String) : String :=
  "Ontology \x27" ++ ontologyId ++ "\x27 not in allowed list: " ++
    String.intercalate ", " cfg.ontologies

/-- Shallow embedding of search_terms (ontology_mapper_tools.py lines
32-133). The adapter construction and the awaited search_ontology call
are folded into the backendCall argument, which stands for the outcome
of that call; any exception it raises is caught by the enclosing
try/except and re-raised as ModelRetry (a ModelRetry raised by the
validation checks passes the isinstance-style check of line 131 and is
re-raised unchanged, which the two error constructors model directly). -/
def searchTerms (cfg : OntologyMapperConfig) (backendCall : BackendCall)
    (ontologyId query : String) : Except SearchError (List EnhancedResult) :=
  if hasSpace ontologyId then
    .error (.modelRetry invalidOntologyMsg)
  else if (cfg.ontologies.map pyLower).contains (pyLower ontologyId) = false then
    .error (.modelRetry (notAllowedMsg cfg ontologyId))
  else
    match backendCall with
    | .raises e => .error (.modelRetry ("Error searching ontology: " ++ e.str))
    | .ok results =>
      let queryLower := pyStrip (pyLower query)
      let enhanced := results.map (enhanceResult ontologyId queryLower)
      if enhanced.isEmpty then
        .ok [sentinelResult ontologyId query]
      else
        .ok enhanced

/-- Shallow embedding of search_ontology (utils/ontology_utils.py lines
38-78). The adapter is modelled by its basic_search function (query to
identifier list, in backend relevance order) and its labels function
(identifier to label, one pair per identifier). A limit of 0 is falsy in
Python, so no truncation happens then. The final branch returns labels
when non-empty and the empty list otherwise, which is the same value. -/
def searchOntology (basicSearch : String → List String) (labelOf : String → String)
    (query : String) (limit : Nat) : List (String × String) :=
  let results := basicSearch query
  let results := if limit ≠ 0 then results.take limit else results
  results.map (fun i => (i, labelOf i))

/-- Exception classes caught by the except clause of
search_ontology_with_oak (knowledge_agent_tools.py line 89): ValueError,
urllib.error.URLError, KeyError. -/
def recognizedOakError : PyExc → Bool
  | .valueError _ => true
  | .urlError _ => true
  | .keyError _ => true
  | .other _ => false

/-- Shallow embedding of search_ontology_with_oak
(knowledge_agent_tools.py lines 40-98). The composite
get_adapter/basic_search/labels call is the backendCall argument. A
recognized exception is caught: a warning is printed and None is
returned (modelled as ok Option.none). Any other exception propagates
(error). Otherwise the pair list is truncated to n entries when n is
non-zero (Python if n is a truthiness test) and returned. -/
def searchOntologyWithOak (backendCall : BackendCall) (n : Nat) :
    Except PyExc (Option (List (String × String))) :=
  match backendCall with
  | .raises e => if recognizedOakError e then .ok Option.none else .error e
  | .ok results => .ok (some (if n ≠ 0 then results.take n else results))

/-- ExtractedEntity model of knowledge_agent_tools.py lines 14-18. -/
structure ExtractedEntity where
  text : String
  entity_type : Option String
  context : Option String
deriving DecidableEq, Repr

/-- EntityGroundingMatch model of knowledge_agent_tools.py lines 21-28. -/
structure EntityGroundingMatch where
  entity : String
  entity_type : String
  ontology_id : String
  ontology_label : String
  annotator : String
  confidence : String
deriving DecidableEq, Repr

/-- GroundingResults model of knowledge_agent_tools.py lines 31-37. The
annotator mapping is an association list from entity class name to
annotator string, in the insertion order of the Python dict. -/
structure GroundingResults where
  entities_processed : List String
  annotators_used : List (String × String)
  successful_matches : List EntityGroundingMatch
  no_matches : List String
  summary : String
deriving DecidableEq, Repr

/-- Body of the inner for of ground_entities_with_template_annotators
(knowledge_agent_tools.py lines 258-286) for one entity text and one
(entity_class, annotator) pair: call search_ontology_with_oak with n=13;
a raised exception is caught and skipped (continue); a falsy result
(None or empty list) yields no match; otherwise the first returned pair
becomes an EntityGroundingMatch whose confidence is the string high when
the lower-cased entity text occurs in the lower-cased label and medium
otherwise. -/
def groundStep (backend : String → String → BackendCall) (entityText : String)
    (ca : String × String) : Option EntityGroundingMatch :=
  match searchOntologyWithOak (backend entityText ca.2) 13 with
  | .error _ => Option.none
  | .ok Option.none => Option.none
  | .ok (some []) => Option.none
  | .ok (some ((termId, label) :: _)) =>
    some { entity := entityText
           entity_type := ca.1
           ontology_id := termId
           ontology_label := label
           annotator := ca.2
           confidence := if strIn (pyLower entityText) (pyLower label) then "high" else "medium" }

/-- Loop of the inner for over the annotator mapping, collecting the
per-annotator matches of groundStep in mapping order. -/
def groundEntity (backend : String → String → BackendCall)
    (annotators : List (String × String)) (entityText : String) :
    List EntityGroundingMatch :=
  annotators.filterMap (groundStep backend entityText)

/-- Python repr of a list of strings, as interpolated by the f-string
for the annotator key list in the summary. -/
def pyStrListRepr (l : List String) : String :=
  "[" ++ String.intercalate ", " (l.map (fun s => "\x27" ++ s ++ "\x27")) ++ "]"

/-- Summary string built at knowledge_agent_tools.py lines 291-309. -/
def groundingSummary (annotators : List (String × String))
    (entityTexts : List String) (successfulMatches : List EntityGroundingMatch)
    (noMatches : List String) : String :=
  let base : List String :=
    ["GROUNDING RESULTS:",
     "Entities processed: " ++ toString entityTexts.length,
     "Annotators used: " ++ pyStrListRepr (annotators.map Prod.fst),
     ""]
  let base := base ++
    (if successfulMatches.isEmpty then [] else
      ("SUCCESSFUL MATCHES (" ++ toString successfulMatches.length ++ "):") ::
        successfulMatches.map (fun m =>
          "- \x27" ++ m.entity ++ "\x27 -> " ++ m.entity_type ++ ": " ++
            m.ontology_id ++ " (" ++ m.ontology_label ++ ")"))
  let base := base ++
    (if noMatches.isEmpty then [] else
      "\nNO MATCHES FOUND:" :: noMatches.map (fun e => "- \x27" ++ e ++ "\x27"))
  String.intercalate "\n" base

/-- Fixed summary of the early return when the template yields no
annotators. -/
def noAnnotatorsSummary : String :=
  "No annotators found in template. Cannot proceed with grounding."

/-- Shallow embedding of ground_entities_with_template_annotators
(knowledge_agent_tools.py lines 215-317), taking the already parsed
annotator mapping (parse_template_annotators returns the empty dict both
when no class carries an annotators annotation and when the YAML fails
to parse; the YAML library itself is not modelled). The single pass of
the source accumulating successful_matches and the entity_has_matches
flag is modelled by computing groundEntity once per entity and joining /
filtering, which produces the same lists in the same order. -/
def groundEntitiesWithTemplateAnnotators (backend : String → String → BackendCall)
    (annotators : List (String × String)) (entities : List ExtractedEntity) :
    GroundingResults :=
  if annotators.isEmpty then
    { entities_processed := []
      annotators_used := []
      successful_matches := []
      no_matches := []
      summary := noAnnotatorsSummary }
  else
    let entityTexts := entities.map (fun e => e.text)
    let per := entities.map (fun e => (e.text, groundEntity backend annotators e.text))
    let successful := (per.map Prod.snd).flatten
    let noMatches := (per.filter (fun p => p.2.isEmpty)).map Prod.fst
    { entities_processed := entityTexts
      annotators_used := annotators
      successful_matches := successful
      no_matches := noMatches
      summary := groundingSummary annotators entityTexts successful noMatches }

/-! Helper lemmas shared by the claim theorems. -/

/-- Unfolding lemma for search_terms on a validated ontology id with a
successful backend call: the backend pairs are mapped through the
classification, with the sentinel fallback on an empty list. -/
theorem searchTerms_valid_ok (cfg : OntologyMapperConfig) (results : List (String × String))
    (ontologyId query : String)
    (hsp : hasSpace ontologyId = false)
    (hal : (cfg.ontologies.map pyLower).contains (pyLower ontologyId) = true) :
    searchTerms cfg (.ok results) ontologyId query =
      if results.isEmpty then Except.ok [sentinelResult ontologyId query]
      else Except.ok (results.map (enhanceResult ontologyId (pyStrip (pyLower query)))) := by
  have h1 : ¬ (hasSpace ontologyId = true) := by simp [hsp]
  have h2 : ¬ ((cfg.ontologies.map pyLower).contains (pyLower ontologyId) = false) := by
    rw [hal]; simp
  unfold searchTerms
  rw [if_neg h1, if_neg h2]
  cases results with
  | nil => rfl
  | cons p ps => rfl

/-- Projecting the classified results back to (id, label) pairs recovers
the backend pairs: the classification annotates and never rewrites or
reorders them. -/
theorem enhance_map_proj (ontologyId queryLower : String) (pairs : List (String × String)) :
    (pairs.map (enhanceResult ontologyId queryLower)).map (fun r => (r.id, r.label)) = pairs := by
  induction pairs with
  | nil => rfl
  | cons p ps ih => simp only [List.map_cons, ih]; rfl

/-- Exact-match branch of the classification chain. -/
theorem classifyMatch_exact (ql ll : String) (h : ql = ll) :
    classifyMatch ql ll = ("exact_label", 0.95, "Exact match to preferred term") := by
  subst h
  simp [classifyMatch]

/-- Substring branch of the classification chain. -/
theorem classifyMatch_partial (ql ll : String) (h : ql ≠ ll) (hs : strIn ql ll = true) :
    classifyMatch ql ll = ("partial_label", 0.85, "Partial match in term label") := by
  have hb : (ll == ql) = false := beq_eq_false_iff_ne.mpr (Ne.symm h)
  simp [classifyMatch, hb, hs]

/-- Word-token branch of the classification chain. -/
theorem classifyMatch_word (ql ll : String) (h : ql ≠ ll) (hs : strIn ql ll = false)
    (hw : (splitWS ql).any (fun w => decide (3 < w.length) && strIn w ll) = true) :
    classifyMatch ql ll = ("word_match", 0.75, "Word-level match via similarity") := by
  have hb : (ll == ql) = false := beq_eq_false_iff_ne.mpr (Ne.symm h)
  simp [classifyMatch, hb, hs, hw]

/-- Fallback branch of the classification chain. -/
theorem classifyMatch_semantic (ql ll : String) (h : ql ≠ ll) (hs : strIn ql ll = false)
    (hw : (splitWS ql).any (fun w => decide (3 < w.length) && strIn w ll) = false) :
    classifyMatch ql ll =
      ("semantic_similarity", 0.65, "Semantic similarity match - review recommended") := by
  have hb : (ll == ql) = false := beq_eq_false_iff_ne.mpr (Ne.symm h)
  simp [classifyMatch, hb, hs, hw]

/-! Claim theorems. -/

/-- C3: for every query, if the backend returns zero matches, search
returns exactly one sentinel result whose identifier is no_match, whose
label interpolates the query into the fixed message, whose
classification is none, and whose confidence is 0.0 — never an empty
list on the no-matches (non-error) path. The \x27 escapes are the
apostrophes of the Python f-string. -/
theorem C3_sentinel_on_empty_backend (cfg : OntologyMapperConfig) (ontologyId query : String)
    (hsp : hasSpace ontologyId = false)
    (hal : (cfg.ontologies.map pyLower).contains (pyLower ontologyId) = true) :
    searchTerms cfg (.ok []) ontologyId query =
      Except.ok [{ id := "no_match",
                   label := "No matches found for \x27" ++ query ++ "\x27",
                   match_type := "none",
                   confidence := 0,
                   curator_note := "No terms found in " ++ ontologyId ++
                     ". Try synonyms or broader/narrower terms.",
                   ontology := pyUpper ontologyId }] := by
  rw [searchTerms_valid_ok cfg [] ontologyId query hsp hal]
  rfl

/-- Witness for C3 at a concrete configuration and query. -/
theorem C3_sentinel_on_empty_backend_witness :
    searchTerms ⟨["mondo", "hp"], 10⟩ (.ok []) "mondo" "xyznonexistent" =
      Except.ok [{ id := "no_match",
                   label := "No matches found for \x27" ++ "xyznonexistent" ++ "\x27",
                   match_type := "none",
                   confidence := 0,
                   curator_note := "No terms found in " ++ "mondo" ++
                     ". Try synonyms or broader/narrower terms.",
                   ontology := pyUpper "mondo" }] :=
  C3_sentinel_on_empty_backend ⟨["mondo", "hp"], 10⟩ "mondo" "xyznonexistent"
    (by decide) (by decide)

/-- C9: search_terms rejects every ontology identifier that is not in
the configured allow-list (config.ontologies, compared
case-insensitively) by raising a retryable ModelRetry error whose
message names the allowed ontologies, before any adapter is created or
backend call is made (the result is the same for every backendCall),
even when the identifier contains no space. -/
theorem C9_allowlist_rejection (cfg : OntologyMapperConfig) (backendCall : BackendCall)
    (ontologyId query : String)
    (hsp : hasSpace ontologyId = false)
    (hal : (cfg.ontologies.map pyLower).contains (pyLower ontologyId) = false) :
    searchTerms cfg backendCall ontologyId query =
      Except.error (SearchError.modelRetry
        ("Ontology \x27" ++ ontologyId ++ "\x27 not in allowed list: " ++
          String.intercalate ", " cfg.ontologies)) := by
  have h1 : ¬ (hasSpace ontologyId = true) := by simp [hsp]
  unfold searchTerms
  rw [if_neg h1, if_pos hal]
  rfl

/-- Witness for C9: a well-formed but unlisted ontology id is rejected
for every backend, here a backend that would have returned a match. -/
theorem C9_allowlist_rejection_witness :
    searchTerms ⟨["mondo", "hp"], 10⟩ (.ok [("GO:1", "cycle")]) "go" "cycle" =
      Except.error (SearchError.modelRetry
        ("Ontology \x27" ++ "go" ++ "\x27 not in allowed list: " ++
          String.intercalate ", " ["mondo", "hp"])) :=
  C9_allowlist_rejection ⟨["mondo", "hp"], 10⟩ (.ok [("GO:1", "cycle")]) "go" "cycle"
    (by decide) (by decide)

/-- C5 counterexample: the claim says every vocabulary identifier
containing whitespace fails with the invalid-vocabulary-id error, but
the source tests only for the space character. The identifier joining
mondo and hp with a tab contains whitespace, yet the run fails with the
allow-list ModelRetry, not the invalid-ontology-id ModelRetry the claim
requires. -/
theorem C5_counterexample :
    ("mondo\thp".toList.any Char.isWhitespace = true) ∧
    searchTerms ⟨["mondo", "hp"], 10⟩ (.ok []) "mondo\thp" "x" =
      Except.error (SearchError.modelRetry
        ("Ontology \x27mondo\thp\x27 not in allowed list: mondo, hp")) ∧
    searchTerms ⟨["mondo", "hp"], 10⟩ (.ok []) "mondo\thp" "x" ≠
      Except.error (SearchError.modelRetry invalidOntologyMsg) := by
  refine ⟨by decide, rfl, ?_⟩
  intro h
  have : SearchError.modelRetry ("Ontology \x27mondo\thp\x27 not in allowed list: mondo, hp") =
      SearchError.modelRetry invalidOntologyMsg := by
    exact Except.error.inj ((rfl : searchTerms ⟨["mondo", "hp"], 10⟩ (.ok []) "mondo\thp" "x" =
      Except.error (SearchError.modelRetry
        ("Ontology \x27mondo\thp\x27 not in allowed list: mondo, hp"))).symm.trans h)
  exact absurd (SearchError.modelRetry.inj this) (by decide)

/-- C5 amended: for every vocabulary identifier containing a space
character (U+0020) — not arbitrary whitespace — search_terms fails with
the retryable invalid-ontology-id ModelRetry, and does so before any
backend call (the result is the same for every configuration and every
backendCall). -/
theorem C5_space_rejection (cfg : OntologyMapperConfig) (backendCall : BackendCall)
    (ontologyId query : String) (h : hasSpace ontologyId = true) :
    searchTerms cfg backendCall ontologyId query =
      Except.error (SearchError.modelRetry invalidOntologyMsg) := by
  unfold searchTerms
  rw [if_pos h]

/-- Witness for C5 amended at the concrete identifier of the spec
scenario, with a backend that would have returned a match. -/
theorem C5_space_rejection_witness :
    searchTerms ⟨["mondo", "hp"], 10⟩ (.ok [("X:1", "x")]) "mondo hp" "x" =
      Except.error (SearchError.modelRetry invalidOntologyMsg) :=
  C5_space_rejection ⟨["mondo", "hp"], 10⟩ (.ok [("X:1", "x")]) "mondo hp" "x" (by decide)

/-- C4 counterexample: the claim says an empty or whitespace-only query
fails with an EmptyQuery validation error before any backend call, but
search_terms contains no query validation at all: a whitespace-only
query reaches the backend, whose returned pair is classified and
returned (so no error is raised and the backend was consulted — the
output depends on the backend result). -/
theorem C4_counterexample :
    searchTerms ⟨["mondo"], 10⟩ (.ok [("X:1", "xyz")]) "mondo" "   " =
      Except.ok [{ id := "X:1", label := "xyz", match_type := "partial_label",
                   confidence := 0.85, curator_note := "Partial match in term label",
                   ontology := "MONDO" }] ∧
    ¬ ∃ err, searchTerms ⟨["mondo"], 10⟩ (.ok [("X:1", "xyz")]) "mondo" "   " =
      Except.error err := by
  refine ⟨rfl, ?_⟩
  rintro ⟨err, h⟩
  exact Except.noConfusion ((rfl : searchTerms ⟨["mondo"], 10⟩ (.ok [("X:1", "xyz")]) "mondo" "   " =
    Except.ok [{ id := "X:1", label := "xyz", match_type := "partial_label",
                 confidence := 0.85, curator_note := "Partial match in term label",
                 ontology := "MONDO" }]).symm.trans h)

/-- C4 amended: search_terms performs no emptiness validation on the
query. For every empty or whitespace-only query (pyStrip query is
empty), a call with a validated ontology id is passed to the backend and
succeeds, returning a non-empty result list (classified backend matches,
or the sentinel when the backend returns none) — never an EmptyQuery
error. -/
theorem C4_no_empty_query_validation (cfg : OntologyMapperConfig)
    (pairs : List (String × String)) (ontologyId query : String)
    (hsp : hasSpace ontologyId = false)
    (hal : (cfg.ontologies.map pyLower).contains (pyLower ontologyId) = true)
    (_hq : pyStrip query = "") :
    ∃ rs, searchTerms cfg (.ok pairs) ontologyId query = Except.ok rs ∧ rs ≠ [] ∧
      (pairs ≠ [] → rs.map (fun r => (r.id, r.label)) = pairs) := by
  rw [searchTerms_valid_ok cfg pairs ontologyId query hsp hal]
  cases pairs with
  | nil => exact ⟨[sentinelResult ontologyId query], rfl, by simp, by simp⟩
  | cons p ps =>
    refine ⟨(p :: ps).map (enhanceResult ontologyId (pyStrip (pyLower query))), rfl, by simp, ?_⟩
    intro _
    exact enhance_map_proj ontologyId (pyStrip (pyLower query)) (p :: ps)

/-- Witness for C4 amended: the empty query with a one-match backend. -/
theorem C4_no_empty_query_validation_witness :
    ∃ rs, searchTerms ⟨["mondo"], 10⟩ (.ok [("X:1", "xyz")]) "mondo" "" = Except.ok rs ∧
      rs ≠ [] ∧
      ([("X:1", "xyz")] ≠ ([] : List (String × String)) →
        rs.map (fun r => (r.id, r.label)) = [("X:1", "xyz")]) :=
  C4_no_empty_query_validation ⟨["mondo"], 10⟩ [("X:1", "xyz")] "mondo" ""
    (by decide) (by decide) (by decide)

/-- C7: for every vocabulary, query, and limit n at least 1, the list
returned by the search pipeline (search_ontology truncating the raw
backend matches to the configured limit, then search_terms classifying
them) has length at most n, and in the sentinel (empty-backend) case the
returned list has length exactly 1 regardless of the limit. -/
theorem C7_truncation_respects_limit (cfg : OntologyMapperConfig)
    (basicSearch : String → List String) (labelOf : String → String)
    (ontologyId query : String)
    (hsp : hasSpace ontologyId = false)
    (hal : (cfg.ontologies.map pyLower).contains (pyLower ontologyId) = true)
    (hn : 1 ≤ cfg.max_search_results) :
    ∃ out, searchTerms cfg
        (.ok (searchOntology basicSearch labelOf query cfg.max_search_results))
        ontologyId query = Except.ok out ∧
      out.length ≤ cfg.max_search_results ∧
      (basicSearch query = [] → out.length = 1) := by
  rw [searchTerms_valid_ok cfg _ ontologyId query hsp hal]
  have hlim : cfg.max_search_results ≠ 0 := by omega
  by_cases hres : (searchOntology basicSearch labelOf query cfg.max_search_results).isEmpty
  · refine ⟨[sentinelResult ontologyId query], by rw [if_pos hres], by simpa using hn, ?_⟩
    intro _
    rfl
  · refine ⟨(searchOntology basicSearch labelOf query cfg.max_search_results).map
      (enhanceResult ontologyId (pyStrip (pyLower query))), by rw [if_neg hres], ?_, ?_⟩
    · rw [List.length_map]
      calc (searchOntology basicSearch labelOf query cfg.max_search_results).length
          = ((basicSearch query).take cfg.max_search_results).length := by
            simp [searchOntology, hlim]
        _ ≤ cfg.max_search_results := by
            rw [List.length_take]
            exact Nat.min_le_left _ _
    · intro hbs
      exact absurd (by simp [searchOntology, hbs]) hres

/-- Witness for C7 with limit 2 and a three-match backend: the output is
truncated to 2. -/
theorem C7_truncation_respects_limit_witness :
    ∃ out, searchTerms ⟨["mondo"], 2⟩
        (.ok (searchOntology (fun _ => ["A:1", "A:2", "A:3"]) (fun i => i ++ "-label") "q" 2))
        "mondo" "q" = Except.ok out ∧
      out.length ≤ 2 ∧
      ((fun (_ : String) => ["A:1", "A:2", "A:3"]) "q" = [] → out.length = 1) :=
  C7_truncation_respects_limit ⟨["mondo"], 2⟩ (fun _ => ["A:1", "A:2", "A:3"])
    (fun i => i ++ "-label") "mondo" "q" (by decide) (by decide) (by decide)

/-- C8: for every backend result sequence, the non-sentinel output of
search preserves the backend order: projecting the classified output
back to (id, label) pairs gives exactly the retained backend sequence,
so the i-th output corresponds to the i-th retained pair and the
classification/confidence annotation never reorders results. -/
theorem C8_order_preservation (cfg : OntologyMapperConfig)
    (results : List (String × String)) (ontologyId query : String)
    (hsp : hasSpace ontologyId = false)
    (hal : (cfg.ontologies.map pyLower).contains (pyLower ontologyId) = true)
    (hne : results ≠ []) :
    ∃ out, searchTerms cfg (.ok results) ontologyId query = Except.ok out ∧
      out.map (fun r => (r.id, r.label)) = results ∧
      out.length = results.length := by
  rw [searchTerms_valid_ok cfg results ontologyId query hsp hal]
  have hres : ¬ results.isEmpty := by
    cases results with
    | nil => exact absurd rfl hne
    | cons p ps => simp
  exact ⟨results.map (enhanceResult ontologyId (pyStrip (pyLower query))), by rw [if_neg hres],
    enhance_map_proj ontologyId (pyStrip (pyLower query)) results, by rw [List.length_map]⟩

/-- Witness for C8 with a two-match backend, in an order a
confidence-based re-sort would invert (a weaker match first). -/
theorem C8_order_preservation_witness :
    ∃ out, searchTerms ⟨["hp"], 10⟩
        (.ok [("HP:2", "unrelated term"), ("HP:1", "cleft palate")]) "hp" "cleft palate" =
      Except.ok out ∧
      out.map (fun r => (r.id, r.label)) =
        [("HP:2", "unrelated term"), ("HP:1", "cleft palate")] ∧
      out.length = [("HP:2", "unrelated term"), ("HP:1", "cleft palate")].length :=
  C8_order_preservation ⟨["hp"], 10⟩ [("HP:2", "unrelated term"), ("HP:1", "cleft palate")]
    "hp" "cleft palate" (by decide) (by decide) (by decide)

/-- C1 counterexample: the claim classifies against the lower-cased,
trimmed query AND label, but the source trims only the query: for the
query heart and the label heart followed by a space (equal after
trimming, so the claim requires exact_label with confidence 0.95), the
code classifies partial_label with confidence 0.85. -/
theorem C1_counterexample :
    pyStrip (pyLower "heart") = pyStrip (pyLower "heart ") ∧
    searchTerms ⟨["mondo"], 10⟩ (.ok [("X:1", "heart ")]) "mondo" "heart" =
      Except.ok [{ id := "X:1", label := "heart ", match_type := "partial_label",
                   confidence := 0.85, curator_note := "Partial match in term label",
                   ontology := "MONDO" }] ∧
    ("partial_label" : String) ≠ "exact_label" := by
  exact ⟨rfl, rfl, by decide⟩

/-- C1 amended: search classifies every retained (identifier, label)
pair against the lower-cased trimmed query and the lower-cased
(un-trimmed) label with this precedence: exact_label with confidence
0.95 when the query equals the label; otherwise partial_label with 0.85
when the query is a substring of the label; otherwise word_match with
0.75 when the label contains at least one whitespace-delimited query
token longer than 3 characters; otherwise semantic_similarity with
0.65. The exact check takes precedence unconditionally, and the
substring check over the word-token check. -/
theorem C1_classification (cfg : OntologyMapperConfig)
    (results : List (String × String)) (ontologyId query : String)
    (hsp : hasSpace ontologyId = false)
    (hal : (cfg.ontologies.map pyLower).contains (pyLower ontologyId) = true) :
    ∃ out, searchTerms cfg (.ok results) ontologyId query = Except.ok out ∧
      ∀ p ∈ results, ∃ r ∈ out, r.id = p.1 ∧ r.label = p.2 ∧
        (pyStrip (pyLower query) = pyLower p.2 →
          r.match_type = "exact_label" ∧ r.confidence = 0.95) ∧
        (pyStrip (pyLower query) ≠ pyLower p.2 →
          strIn (pyStrip (pyLower query)) (pyLower p.2) = true →
          r.match_type = "partial_label" ∧ r.confidence = 0.85) ∧
        (pyStrip (pyLower query) ≠ pyLower p.2 →
          strIn (pyStrip (pyLower query)) (pyLower p.2) = false →
          (∃ w ∈ splitWS (pyStrip (pyLower query)),
            3 < w.length ∧ strIn w (pyLower p.2) = true) →
          r.match_type = "word_match" ∧ r.confidence = 0.75) ∧
        (pyStrip (pyLower query) ≠ pyLower p.2 →
          strIn (pyStrip (pyLower query)) (pyLower p.2) = false →
          (∀ w ∈ splitWS (pyStrip (pyLower query)),
            3 < w.length → strIn w (pyLower p.2) = false) →
          r.match_type = "semantic_similarity" ∧ r.confidence = 0.65) := by
  rw [searchTerms_valid_ok cfg results ontologyId query hsp hal]
  by_cases hres : results.isEmpty
  · refine ⟨[sentinelResult ontologyId query], by rw [if_pos hres], ?_⟩
    intro p hp
    rw [List.isEmpty_iff] at hres
    rw [hres] at hp
    exact absurd hp (List.not_mem_nil p)
  · refine ⟨results.map (enhanceResult ontologyId (pyStrip (pyLower query))),
      by rw [if_neg hres], ?_⟩
    intro p hp
    refine ⟨enhanceResult ontologyId (pyStrip (pyLower query)) p,
      List.mem_map_of_mem _ hp, rfl, rfl, ?_, ?_, ?_, ?_⟩
    · intro heq
      have hc := classifyMatch_exact (pyStrip (pyLower query)) (pyLower p.2) heq
      constructor
      · show (classifyMatch (pyStrip (pyLower query)) (pyLower p.2)).1 = "exact_label"
        rw [hc]
      · show (classifyMatch (pyStrip (pyLower query)) (pyLower p.2)).2.1 = 0.95
        rw [hc]
    · intro hne hs
      have hc := classifyMatch_partial (pyStrip (pyLower query)) (pyLower p.2) hne hs
      constructor
      · show (classifyMatch (pyStrip (pyLower query)) (pyLower p.2)).1 = "partial_label"
        rw [hc]
      · show (classifyMatch (pyStrip (pyLower query)) (pyLower p.2)).2.1 = 0.85
        rw [hc]
    · intro hne hs hw
      have hany : (splitWS (pyStrip (pyLower query))).any
          (fun w => decide (3 < w.length) && strIn w (pyLower p.2)) = true := by
        rw [List.any_eq_true]
        obtain ⟨w, hwmem, hwlen, hwin⟩ := hw
        exact ⟨w, hwmem, by simp [hwlen, hwin]⟩
      have hc := classifyMatch_word (pyStrip (pyLower query)) (pyLower p.2) hne hs hany
      constructor
      · show (classifyMatch (pyStrip (pyLower query)) (pyLower p.2)).1 = "word_match"
        rw [hc]
      · show (classifyMatch (pyStrip (pyLower query)) (pyLower p.2)).2.1 = 0.75
        rw [hc]
    · intro hne hs hw
      have hany : (splitWS (pyStrip (pyLower query))).any
          (fun w => decide (3 < w.length) && strIn w (pyLower p.2)) = false := by
        rw [List.any_eq_false]
        intro w hwmem
        by_cases hlen : 3 < w.length
        · simp [hlen, hw w hwmem hlen]
        · simp [hlen]
      have hc := classifyMatch_semantic (pyStrip (pyLower query)) (pyLower p.2) hne hs hany
      constructor
      · show (classifyMatch (pyStrip (pyLower query)) (pyLower p.2)).1 = "semantic_similarity"
        rw [hc]
      · show (classifyMatch (pyStrip (pyLower query)) (pyLower p.2)).2.1 = 0.65
        rw [hc]

/-- Witness for C1 amended at the spec scenario: query eye abnormality
against the label Abnormality of the eye. -/
theorem C1_classification_witness :
    ∃ out, searchTerms ⟨["hp"], 10⟩ (.ok [("HP:0000478", "Abnormality of the eye")])
        "hp" "eye abnormality" = Except.ok out ∧
      ∀ p ∈ [("HP:0000478", "Abnormality of the eye")], ∃ r ∈ out, r.id = p.1 ∧ r.label = p.2 ∧
        (pyStrip (pyLower "eye abnormality") = pyLower p.2 →
          r.match_type = "exact_label" ∧ r.confidence = 0.95) ∧
        (pyStrip (pyLower "eye abnormality") ≠ pyLower p.2 →
          strIn (pyStrip (pyLower "eye abnormality")) (pyLower p.2) = true →
          r.match_type = "partial_label" ∧ r.confidence = 0.85) ∧
        (pyStrip (pyLower "eye abnormality") ≠ pyLower p.2 →
          strIn (pyStrip (pyLower "eye abnormality")) (pyLower p.2) = false →
          (∃ w ∈ splitWS (pyStrip (pyLower "eye abnormality")),
            3 < w.length ∧ strIn w (pyLower p.2) = true) →
          r.match_type = "word_match" ∧ r.confidence = 0.75) ∧
        (pyStrip (pyLower "eye abnormality") ≠ pyLower p.2 →
          strIn (pyStrip (pyLower "eye abnormality")) (pyLower p.2) = false →
          (∀ w ∈ splitWS (pyStrip (pyLower "eye abnormality")),
            3 < w.length → strIn w (pyLower p.2) = false) →
          r.match_type = "semantic_similarity" ∧ r.confidence = 0.65) :=
  C1_classification ⟨["hp"], 10⟩ [("HP:0000478", "Abnormality of the eye")]
    "hp" "eye abnormality" (by decide) (by decide)

/-- C2 counterexample: the claim says a recognized condition (here a
missing key lookup, KeyError) makes search log a warning and return an
empty list in both parallel implementations. In search_terms it instead
raises a ModelRetry; in search_ontology_with_oak it returns None, which
is not the empty list. -/
theorem C2_counterexample :
    searchTerms ⟨["mondo"], 10⟩ (.raises (.keyError "missing")) "mondo" "q" =
      Except.error (SearchError.modelRetry "Error searching ontology: missing") ∧
    searchTerms ⟨["mondo"], 10⟩ (.raises (.keyError "missing")) "mondo" "q" ≠
      Except.ok [] ∧
    searchOntologyWithOak (.raises (.keyError "missing")) 10 = Except.ok Option.none ∧
    searchOntologyWithOak (.raises (.keyError "missing")) 10 ≠
      Except.ok (some []) := by
  refine ⟨rfl, ?_, rfl, ?_⟩
  · intro h
    exact Except.noConfusion
      ((rfl : searchTerms ⟨["mondo"], 10⟩ (.raises (.keyError "missing")) "mondo" "q" =
        Except.error (SearchError.modelRetry "Error searching ontology: missing")).symm.trans h)
  · intro h
    have h2 : (Option.none : Option (List (String × String))) = some [] :=
      Except.ok.inj ((rfl : searchOntologyWithOak (.raises (.keyError "missing")) 10 =
        Except.ok Option.none).symm.trans h)
    exact Option.noConfusion h2

/-- C2 amended: the two implementations differ. In
search_ontology_with_oak, a recognized condition (ValueError, URLError,
KeyError — malformed scheme, URL resolution failure, missing key
lookup) is not raised: a warning is printed and None (not an empty
list) is returned, while any other exception propagates unchanged. In
search_terms there is no such two-tier distinction: every backend
exception, recognized or not, is converted to a ModelRetry error. -/
theorem C2_backend_error_policy (n : Nat) (m s : String) :
    searchOntologyWithOak (.raises (.valueError m)) n = Except.ok Option.none ∧
    searchOntologyWithOak (.raises (.urlError m)) n = Except.ok Option.none ∧
    searchOntologyWithOak (.raises (.keyError m)) n = Except.ok Option.none ∧
    searchOntologyWithOak (.raises (.other s)) n = Except.error (.other s) ∧
    (∀ (e : PyExc) (cfg : OntologyMapperConfig) (ontologyId query : String),
      hasSpace ontologyId = false →
      (cfg.ontologies.map pyLower).contains (pyLower ontologyId) = true →
      searchTerms cfg (.raises e) ontologyId query =
        Except.error (.modelRetry ("Error searching ontology: " ++ e.str))) := by
  refine ⟨rfl, rfl, rfl, rfl, ?_⟩
  intro e cfg ontologyId query hsp hal
  have h1 : ¬ (hasSpace ontologyId = true) := by simp [hsp]
  have h2 : ¬ ((cfg.ontologies.map pyLower).contains (pyLower ontologyId) = false) := by
    rw [hal]; simp
  unfold searchTerms
  rw [if_neg h1, if_neg h2]

/-- Witness for C2 amended: concrete recognized and unrecognized
exceptions through both implementations. -/
theorem C2_backend_error_policy_witness :
    searchOntologyWithOak (.raises (.valueError "bad scheme")) 5 = Except.ok Option.none ∧
    searchOntologyWithOak (.raises (.other "boom")) 5 = Except.error (.other "boom") ∧
    searchTerms ⟨["mondo"], 10⟩ (.raises (.urlError "resolve")) "mondo" "q" =
      Except.error (.modelRetry ("Error searching ontology: " ++
        PyExc.str (.urlError "resolve"))) :=
  ⟨(C2_backend_error_policy 5 "bad scheme" "boom").1,
   (C2_backend_error_policy 5 "bad scheme" "boom").2.2.2.1,
   (C2_backend_error_policy 5 "bad scheme" "boom").2.2.2.2 (.urlError "resolve")
     ⟨["mondo"], 10⟩ "mondo" "q" (by decide) (by decide)⟩

/-- C10: whenever the annotator mapping parsed from the template is
empty (parse_template_annotators returns the empty mapping both when no
class carries an annotators annotation and when the YAML fails to
parse), ground_entities_with_template_annotators returns a
GroundingResults whose entities_processed, annotators_used,
successful_matches and no_matches are all empty — for every input entity
list and every backend — with the fixed summary; the entities are
neither searched nor reported as unmatched. -/
theorem C10_empty_annotators (backend : String → String → BackendCall)
    (entities : List ExtractedEntity) :
    groundEntitiesWithTemplateAnnotators backend [] entities =
      { entities_processed := []
        annotators_used := []
        successful_matches := []
        no_matches := []
        summary := "No annotators found in template. Cannot proceed with grounding." } := rfl

/-- Characterization of a successful per-annotator step: it produces a
match exactly when the oak search returns a non-empty list, and the
match is built from the head of that list. -/
theorem groundStep_eq_some (backend : String → String → BackendCall) (entityText : String)
    (ca : String × String) (m : EntityGroundingMatch) :
    groundStep backend entityText ca = some m ↔
      ∃ termId label rest,
        searchOntologyWithOak (backend entityText ca.2) 13 =
          Except.ok (some ((termId, label) :: rest)) ∧
        m = { entity := entityText, entity_type := ca.1, ontology_id := termId,
              ontology_label := label, annotator := ca.2,
              confidence := if strIn (pyLower entityText) (pyLower label) then "high"
                            else "medium" } := by
  unfold groundStep
  split
  next e heq => rw [heq]; simp
  next heq => rw [heq]; simp
  next heq => rw [heq]; simp
  next termId label rest heq =>
    rw [heq]
    simp only [Option.some.injEq, Except.ok.injEq, List.cons.injEq, Prod.mk.injEq]
    constructor
    · intro hm
      exact ⟨termId, label, rest, ⟨⟨rfl, rfl⟩, rfl⟩, hm.symm⟩
    · rintro ⟨t, l, r2, ⟨⟨ht, hl⟩, hr⟩, hm⟩
      subst ht; subst hl
      exact hm.symm

/-- Characterization of a failed per-annotator step: no match exactly
when the oak search does not return a non-empty list. -/
theorem groundStep_eq_none (backend : String → String → BackendCall) (entityText : String)
    (ca : String × String) :
    groundStep backend entityText ca = Option.none ↔
      ∀ termId label rest,
        searchOntologyWithOak (backend entityText ca.2) 13 ≠
          Except.ok (some ((termId, label) :: rest)) := by
  unfold groundStep
  split
  next e heq => rw [heq]; simp
  next heq => rw [heq]; simp
  next heq => rw [heq]; simp
  next termId label rest heq =>
    rw [heq]
    constructor
    · intro h
      exact Option.noConfusion h
    · intro h
      exact absurd rfl (h termId label rest)

/-- Unfolding of the successful-match list of the batch grounding on a
non-empty annotator mapping. -/
theorem groundEntities_successful (backend : String → String → BackendCall)
    (annotators : List (String × String)) (entities : List ExtractedEntity)
    (hne : annotators ≠ []) :
    (groundEntitiesWithTemplateAnnotators backend annotators entities).successful_matches =
      (entities.map (fun e => groundEntity backend annotators e.text)).flatten := by
  have h : ¬ (annotators.isEmpty = true) := by
    cases annotators with
    | nil => exact absurd rfl hne
    | cons a as => simp
  unfold groundEntitiesWithTemplateAnnotators
  rw [if_neg h]
  simp [List.map_map, Function.comp_def]

/-- Unfolding of the unmatched list of the batch grounding on a
non-empty annotator mapping. -/
theorem groundEntities_nomatches (backend : String → String → BackendCall)
    (annotators : List (String × String)) (entities : List ExtractedEntity)
    (hne : annotators ≠ []) :
    (groundEntitiesWithTemplateAnnotators backend annotators entities).no_matches =
      (entities.filter
        (fun e => (groundEntity backend annotators e.text).isEmpty)).map (fun e => e.text) := by
  have h : ¬ (annotators.isEmpty = true) := by
    cases annotators with
    | nil => exact absurd rfl hne
    | cons a as => simp
  unfold groundEntitiesWithTemplateAnnotators
  rw [if_neg h]
  simp [List.filter_map, List.map_map, Function.comp_def]

/-- C6 counterexample: the claim says a successful match is tagged with
the classification/confidence produced by search, but the grounding loop
computes its own two-valued high/medium string. For the mention eye
abnormality matched to the label Abnormality of the eye, the search
classification is word_match with confidence 0.75, while the recorded
match carries only the locally computed string medium (and no
classification at all). -/
theorem C6_counterexample :
    (groundEntitiesWithTemplateAnnotators
        (fun _ _ => .ok [("HP:0000478", "Abnormality of the eye")])
        [("Phenotype", "hp")]
        [⟨"eye abnormality", Option.none, Option.none⟩]).successful_matches =
      [{ entity := "eye abnormality", entity_type := "Phenotype",
         ontology_id := "HP:0000478", ontology_label := "Abnormality of the eye",
         annotator := "hp", confidence := "medium" }] ∧
    classifyMatch (pyStrip (pyLower "eye abnormality")) (pyLower "Abnormality of the eye") =
      ("word_match", 0.75, "Word-level match via similarity") ∧
    ("medium" : String) ≠ "word_match" := by
  exact ⟨rfl, rfl, by decide⟩

/-- C6 amended: in batch grounding, every input mention is searched
against every vocabulary in the annotator mapping (not only the one
matching its type hint); for each (mention, vocabulary) pair for which
the oak search returns a non-empty result list, the first returned pair
is recorded as a successful match tagged with the entity class and the
vocabulary consulted, its confidence being the locally computed string
high when the lower-cased mention occurs in the lower-cased label and
medium otherwise (no classification or confidence from search is
attached); and a mention appears in the unmatched list exactly when it
has zero successful matches across all vocabularies. -/
theorem C6_batch_grounding (backend : String → String → BackendCall)
    (annotators : List (String × String)) (entities : List ExtractedEntity)
    (hne : annotators ≠ []) :
    (∀ m, m ∈ (groundEntitiesWithTemplateAnnotators backend annotators entities).successful_matches ↔
      ∃ e ∈ entities, ∃ ca ∈ annotators, ∃ termId label rest,
        searchOntologyWithOak (backend e.text ca.2) 13 =
          Except.ok (some ((termId, label) :: rest)) ∧
        m = { entity := e.text, entity_type := ca.1, ontology_id := termId,
              ontology_label := label, annotator := ca.2,
              confidence := if strIn (pyLower e.text) (pyLower label) then "high"
                            else "medium" }) ∧
    (∀ t, t ∈ (groundEntitiesWithTemplateAnnotators backend annotators entities).no_matches ↔
      ∃ e ∈ entities, e.text = t ∧
        ∀ ca ∈ annotators, ∀ termId label rest,
          searchOntologyWithOak (backend e.text ca.2) 13 ≠
            Except.ok (some ((termId, label) :: rest))) := by
  constructor
  · intro m
    rw [groundEntities_successful backend annotators entities hne]
    rw [List.mem_flatten]
    constructor
    · rintro ⟨l, hl, hml⟩
      rw [List.mem_map] at hl
      obtain ⟨e, he, rfl⟩ := hl
      rw [groundEntity, List.mem_filterMap] at hml
      obtain ⟨ca, hca, hstep⟩ := hml
      rw [groundStep_eq_some] at hstep
      obtain ⟨termId, label, rest, hoak, hm⟩ := hstep
      exact ⟨e, he, ca, hca, termId, label, rest, hoak, hm⟩
    · rintro ⟨e, he, ca, hca, termId, label, rest, hoak, hm⟩
      refine ⟨groundEntity backend annotators e.text, List.mem_map_of_mem _ he, ?_⟩
      rw [groundEntity, List.mem_filterMap]
      refine ⟨ca, hca, ?_⟩
      rw [groundStep_eq_some]
      exact ⟨termId, label, rest, hoak, hm⟩
  · intro t
    rw [groundEntities_nomatches backend annotators entities hne]
    rw [List.mem_map]
    constructor
    · rintro ⟨e, he, rfl⟩
      rw [List.mem_filter] at he
      obtain ⟨he, hempty⟩ := he
      refine ⟨e, he, rfl, ?_⟩
      intro ca hca termId label rest
      rw [List.isEmpty_iff] at hempty
      rw [groundEntity] at hempty
      have := (List.filterMap_eq_nil_iff.mp hempty) ca hca
      exact (groundStep_eq_none backend e.text ca).mp this termId label rest
    · rintro ⟨e, he, rfl, hfail⟩
      refine ⟨e, ?_, rfl⟩
      rw [List.mem_filter]
      refine ⟨he, ?_⟩
      rw [List.isEmpty_iff, groundEntity]
      rw [List.filterMap_eq_nil_iff]
      intro ca hca
      rw [groundStep_eq_none]
      exact hfail ca hca

/-- Witness for C6 amended at the spec scenario: cleft palate against
the hp annotator, yielding one successful match and no unmatched
mention. -/
theorem C6_batch_grounding_witness :
    ({ entity := "cleft palate", entity_type := "Phenotype", ontology_id := "HP:0000175",
       ontology_label := "Cleft palate", annotator := "hp",
       confidence := "high" } : EntityGroundingMatch) ∈
      (groundEntitiesWithTemplateAnnotators
        (fun _ _ => .ok [("HP:0000175", "Cleft palate")])
        [("Phenotype", "hp")]
        [⟨"cleft palate", Option.none, Option.none⟩]).successful_matches := by
  apply ((C6_batch_grounding (fun _ _ => .ok [("HP:0000175", "Cleft palate")])
    [("Phenotype", "hp")] [⟨"cleft palate", Option.none, Option.none⟩]
    (by decide)).1 _).mpr
  exact ⟨⟨"cleft palate", Option.none, Option.none⟩, by decide, ("Phenotype", "hp"),
    by decide, "HP:0000175", "Cleft palate", [], rfl, by decide⟩

end Aurelian

